import Mathlib

/-!
Verification of the CyberSentinel URL-scanning backend.

Shallow embedding of the decision pipeline of
`src/backend/src/services/scanner_service.py`, its helper functions in
`src/backend/src/utils.py`, and the `/scan` endpoint of
`src/backend/src/main.py`.

Conventions of the embedding:
- Python floats that carry risk scores are modelled as `Rat` (all constants
  appearing in the code are exactly representable).
- `datetime` instants are modelled at day granularity by an integer number
  of days since an arbitrary epoch; the current UTC time `datetime.utcnow()`
  is a parameter `now : Int`.
- Fallible network calls (DNS existence, HTTP probe, WHOIS, the classifier)
  are external boundaries per the spec; their outcomes for the scanned URL
  are the fields of a `ScanEnv` record that the embedded `scan` consumes.
- Python exceptions are modelled with `Except String`.
-/

namespace CyberSentinel

/-! ## Python value model for WHOIS creation dates -/

/-- Model of a Python `datetime`: the instant as days since an arbitrary
epoch (for timezone-aware values this is the UTC instant, so
`astimezone(utc).replace(tzinfo=None)` keeps `epochDays`), plus the
`tzinfo is not None` flag. -/
structure PyDatetime where
  epochDays : Int
  aware : Bool
deriving DecidableEq

/-- Model of the heterogeneous Python values that can reach
`calculate_domain_age_days` as `creation_date`: `None`, a `datetime`, a
string (abstracted by its emptiness and by the result of
`datetime.fromisoformat`, which is Python stdlib and external to the
repository), a list, or any other object (abstracted by its truthiness). -/
inductive PyVal where
  | none
  | dt (d : PyDatetime)
  | str (isEmpty : Bool) (iso : Option PyDatetime)
  | list (elems : List PyVal)
  | other (truthy : Bool)

/-- Python truthiness (`if not creation_date`) for the modelled values. -/
def pyTruthy : PyVal → Bool
  | .none => false
  | .dt _ => true
  | .str e _ => !e
  | .list xs => !xs.isEmpty
  | .other t => t

/-- Embedding of `calculate_domain_age_days` (src/backend/src/utils.py,
lines 160-182).  Mirrors the source: falsy input returns `None`; a list is
replaced by its first element; a string goes through
`datetime.fromisoformat` (parse failure returns `None`); then the
`creation_date.tzinfo` attribute access raises `AttributeError` when the
value at that point is not a `datetime`; finally the age is
`(utcnow - creation_date).days`, at day granularity `now - epochDays`
(the timezone normalisation keeps the instant). -/
def calculate_domain_age_days (now : Int) (creation_date : PyVal) :
    Except String (Option Int) :=
  if pyTruthy creation_date = false then
    .ok Option.none
  else
    let cd := match creation_date with
      | .list (x :: _) => x
      | v => v
    match cd with
    | .str _ iso =>
      match iso with
      | some d => .ok (some (now - d.epochDays))
      | Option.none => .ok Option.none
    | .dt d => .ok (some (now - d.epochDays))
    | _ => .error "AttributeError: object has no attribute tzinfo"

/-- Shapes of `creation_date` values on which the normalisation of
`calculate_domain_age_days` can run to completion: `None`, a `datetime`,
a string, the empty list (falsy), or a list whose first element is a
`datetime` or a string.  Other truthy shapes hit the `tzinfo` attribute
access with a non-`datetime` value. -/
def goodShape : PyVal → Bool
  | .none => true
  | .dt _ => true
  | .str _ _ => true
  | .list [] => true
  | .list (x :: _) =>
    match x with
    | .dt _ => true
    | .str _ _ => true
    | _ => false
  | .other _ => false

/-! ## Classifier labels -/

/-- The four classes of the multi-class URLBERT model; `env.label` below is
the argmax class of the logits (scanner_service.py, lines 28-33 and 107). -/
inductive Label where
  | benign
  | phishing
  | defacement
  | malware
deriving DecidableEq

/-- The `id2label` mapping of scanner_service.py composed with the argmax
class: the `url_type` string of the prediction. -/
def id2label : Label → String
  | .benign => "benign"
  | .phishing => "phishing"
  | .defacement => "defacement"
  | .malware => "malware"

/-! ## WHOIS and DNS data -/

/-- Model of the dictionary returned by `get_whois_info` as consumed by
`scan` and `explain_whois`: the error marker (the dict is `{"error": ...}`,
from a failed RDAP fallback), plus the fields the scanner reads.
`creation_date` has already passed through `_safe_date` in
`get_whois_info`, so it is a `datetime` or `None`.  Fields the scanner
never reads (owner, expiration_date, updated_date, name_servers, status)
are omitted. -/
structure WhoisData where
  isError : Bool
  domain_name : Option String
  registrar : Option String
  creation_date : Option PyDatetime
deriving DecidableEq

/-- One entry of the `A` record list built by `dns_lookup`. -/
structure ARecord where
  address : String
  ttl : Option Int
deriving DecidableEq

/-- One entry of the `MX` record list built by `dns_lookup`. -/
structure MXRecord where
  exchange : String
  priority : Option Int
  ttl : Option Int
deriving DecidableEq

/-- One entry of the `NS` record list built by `dns_lookup`. -/
structure NSRecord where
  target : String
  ttl : Option Int
deriving DecidableEq

/-- The dictionary returned by `dns_lookup`: each record type is `None`
(lookup failed) or a list of records. -/
structure DnsData where
  A : Option (List ARecord)
  MX : Option (List MXRecord)
  NS : Option (List NSRecord)
deriving DecidableEq

/-- Python truthiness of `dns_data.get("A")`: a non-empty list. -/
def dnsHasA (d : DnsData) : Bool :=
  match d.A with
  | some (_ :: _) => true
  | _ => false

/-- Python truthiness of `dns_data.get("MX")`: a non-empty list. -/
def dnsHasMX (d : DnsData) : Bool :=
  match d.MX with
  | some (_ :: _) => true
  | _ => false

/-- Python truthiness of `dns_data.get("NS")`: a non-empty list. -/
def dnsHasNS (d : DnsData) : Bool :=
  match d.NS with
  | some (_ :: _) => true
  | _ => false

/-! ## Formatting helpers (src/backend/src/utils.py) -/

/-- Rendering of an `Option String` the way a Python f-string renders the
value (`None` prints as the literal string `None`). -/
def pyShowOptStr : Option String → String
  | Option.none => "None"
  | some s => s

/-- Rendering of an `Option Int` the way a Python f-string renders it. -/
def pyShowOptInt : Option Int → String
  | Option.none => "None"
  | some n => toString n

/-- Embedding of `explain_whois` (utils.py, lines 252-268). -/
def explain_whois (whois_data : WhoisData) (age_days : Option Int) : String :=
  if whois_data.isError then
    "WHOIS lookup failed or not available."
  else
    let parts := ["Domain: " ++ pyShowOptStr whois_data.domain_name]
    let parts := match whois_data.registrar with
      | some r => if r.isEmpty then parts else parts ++ ["Registrar: " ++ r]
      | Option.none => parts
    let parts := match age_days with
      | some a =>
        if a < 30 then
          parts ++ ["Age: " ++ toString a ++ " days (very new — higher risk)"]
        else if a < 365 then
          parts ++ ["Age: " ++ toString a ++ " days (moderately new)"]
        else
          parts ++ ["Age: " ++ toString a ++ " days (established)"]
      | Option.none => parts
    String.intercalate " • " parts

/-- The lines the `section` helper of `format_dns_readable` emits for an
absent or empty record list. -/
def dnsEmptySection (title : String) : List String :=
  [title ++ ":", " - ❌ No records found", ""]

/-- Embedding of `format_dns_readable` (utils.py, lines 271-290). -/
def format_dns_readable (dns_data : DnsData) : String :=
  let aLines := match dns_data.A with
    | some (r :: rs) =>
      ("A Records:" :: ((r :: rs).map fun rec =>
        " - " ++ rec.address ++ " (ttl=" ++ pyShowOptInt rec.ttl ++ ")")) ++ [""]
    | _ => dnsEmptySection "A Records"
  let mxLines := match dns_data.MX with
    | some (r :: rs) =>
      ("MX Records:" :: ((r :: rs).map fun rec =>
        " - " ++ rec.exchange ++ " (priority=" ++ pyShowOptInt rec.priority ++
          ", ttl=" ++ pyShowOptInt rec.ttl ++ ")")) ++ [""]
    | _ => dnsEmptySection "MX Records"
  let nsLines := match dns_data.NS with
    | some (r :: rs) =>
      ("NS Records:" :: ((r :: rs).map fun rec =>
        " - " ++ rec.target ++ " (ttl=" ++ pyShowOptInt rec.ttl ++ ")")) ++ [""]
    | _ => dnsEmptySection "NS Records"
  String.intercalate "\n" (aLines ++ mxLines ++ nsLines)

/-- Embedding of `calculate_risk_score` (utils.py, lines 196-217).  Note:
this helper is defined in utils.py but is never called by
`URLScannerService.scan`. -/
def calculate_risk_score (model_prob : Rat) (domain_age_days : Option Int)
    (dns_data : DnsData) : Rat :=
  let risk := model_prob
  let risk := match domain_age_days with
    | some a => if a < 30 then risk + 0.18 else if a < 365 then risk + 0.05 else risk
    | Option.none => risk
  let risk := if dnsHasMX dns_data = false then risk + 0.06 else risk
  let risk := if dnsHasA dns_data = false then risk + 0.10 else risk
  min risk 1

/-! ## URL normalisation and syntax validation -/

/-- Contiguous-sublist test on character lists (executable form of
`List.IsInfix`). -/
def charsInfixOf (pat : List Char) : List Char → Bool
  | [] => pat.isEmpty
  | c :: cs => pat.isPrefixOf (c :: cs) || charsInfixOf pat cs

/-- Python `"://" in url`: substring containment, on character lists. -/
def hasSchemeSep (url : String) : Bool :=
  charsInfixOf "://".toList url.toList

/-- Step 1 of `URLScannerService.scan` (scanner_service.py, lines 47-48):
prepend `http://` when the scheme separator is absent. -/
def normalize_url (url : String) : String :=
  if hasSchemeSep url = false then "http://" ++ url else url

/-- The text after the first occurrence of `sep`, or `none` when `sep`
does not occur. -/
def afterSep (sep : List Char) : List Char → Option (List Char)
  | [] => if sep.isEmpty then some [] else Option.none
  | c :: cs =>
    if sep.isPrefixOf (c :: cs) then some (List.drop sep.length (c :: cs))
    else afterSep sep cs

/-- Modelled from the spec: `is_valid_url_syntax` is imported by
scanner_service.py from `src.utils` but is defined nowhere in the
repository.  Section 4.1 of the spec gives its contract: parse the URL,
require a non-empty hostname containing at least one dot, and reject
strings containing whitespace.  The hostname is the text after the first
scheme separator, up to a path, port, query or fragment delimiter.
(The name carries a `_spec` suffix marking the modelled origin.) -/
def is_valid_url_syntax_spec (url : String) : Bool :=
  (url.toList.all fun c => !c.isWhitespace) &&
  (match afterSep "://".toList url.toList with
   | some after =>
     let host := after.takeWhile fun c =>
       c != '/' && c != ':' && c != '?' && c != '#'
     !host.isEmpty && host.contains '.'
   | Option.none => false)

/-- Python `round(x, 2)` on our exact rationals: scale by 100 and round
half to even (bankers rounding), as Python `round` does. -/
def pyRound2 (q : Rat) : Rat :=
  let x := q * 100
  let fl : Int := ⌊x⌋
  let frac := x - fl
  let n : Int :=
    if frac > 1/2 then fl + 1
    else if frac < 1/2 then fl
    else if fl % 2 = 0 then fl else fl + 1
  (n : Rat) / 100

/-! ## Scan results and the scanner service -/

/-- The non-error response dictionary built by `URLScannerService.scan`. -/
structure ScanResult where
  domain : String
  trust_status : String
  url_type : String
  risk_level : String
  risk_score : Rat
  reachable : Bool
  verdict : String
  whois_summary : String
  dns_summary : String
deriving DecidableEq

/-- A scan either produces an error dictionary `{"error": msg}` or a full
result dictionary. -/
inductive ScanOutcome where
  | error (msg : String)
  | result (r : ScanResult)
deriving DecidableEq

/-- The `risk_score` field of a non-error outcome. -/
def ScanOutcome.riskScore? : ScanOutcome → Option Rat
  | .error _ => Option.none
  | .result r => some r.risk_score

/-- The `trust_status` field of a non-error outcome. -/
def ScanOutcome.trustStatus? : ScanOutcome → Option String
  | .error _ => Option.none
  | .result r => some r.trust_status

/-- The `risk_level` field of a non-error outcome. -/
def ScanOutcome.riskLevel? : ScanOutcome → Option String
  | .error _ => Option.none
  | .result r => some r.risk_level

/-- The `url_type` field of a non-error outcome. -/
def ScanOutcome.urlType? : ScanOutcome → Option String
  | .error _ => Option.none
  | .result r => some r.url_type

/-- The `verdict` field of a non-error outcome. -/
def ScanOutcome.verdict? : ScanOutcome → Option String
  | .error _ => Option.none
  | .result r => some r.verdict

/-- Which of the external calls of the scan pipeline were issued: the
`domain_exists` DNS probe, the `is_http_accessible` probe, the
`get_whois_info` lookup, the `dns_lookup`, and the tokenizer/model
classifier invocation. -/
structure Trace where
  domainExistsCalled : Bool
  httpCalled : Bool
  whoisCalled : Bool
  dnsCalled : Bool
  classifierCalled : Bool
deriving DecidableEq

/-- No external call issued. -/
def Trace.noCalls : Trace :=
  ⟨false, false, false, false, false⟩

/-- Only the `domain_exists` probe was issued. -/
def Trace.existsOnly : Trace :=
  ⟨true, false, false, false, false⟩

/-- The `domain_exists` and HTTP probes were issued (trusted shortcut). -/
def Trace.probesOnly : Trace :=
  ⟨true, true, false, false, false⟩

/-- Every external call of the default path was issued. -/
def Trace.allCalls : Trace :=
  ⟨true, true, true, true, true⟩

/-- Outcomes of the external boundaries for the scanned URL.  The functions
`extract_domain`, `domain_exists` and `is_http_accessible` are imported by
scanner_service.py from `src.utils` but defined nowhere in the repository;
per the spec (sections 4.2, 4.3, 6) they are fallible external lookups, so
the embedding takes their outcomes as inputs, alongside the outcomes of
`get_whois_info`, `dns_lookup` and the classifier. -/
structure ScanEnv where
  domain : String
  domainExists : Bool
  httpReachable : Bool
  whois : WhoisData
  dns : DnsData
  label : Label
  confidence : Rat

/-- The age computation of step 7 of `scan`:
`calculate_domain_age_days(whois_data.get("creation_date"))`.  The
argument has passed through `_safe_date` inside `get_whois_info`, so its
shape is `None` or a `datetime`; on those shapes the call never raises
(lemma `scan_age_days_ok` below), and the value is extracted. -/
def scan_age_days (env : ScanEnv) (now : Int) : Option Int :=
  let creation : PyVal := match env.whois.creation_date with
    | some d => .dt d
    | Option.none => .none
  match calculate_domain_age_days now creation with
  | .ok a => a
  | .error _ => Option.none

/-- Embedding of `URLScannerService.scan` (scanner_service.py, lines
43-163), paired with the trace of external calls issued.
`popular_domains` is the trust set held by the service. -/
def scan (popular_domains : List String) (env : ScanEnv) (now : Int)
    (url0 : String) : ScanOutcome × Trace :=
  -- 1. Normalize URL
  let url := normalize_url url0
  -- 2. URL syntax validation
  if is_valid_url_syntax_spec url = false then
    (.error "Invalid URL format. Please enter a valid URL.", Trace.noCalls)
  else
    -- 3. Extract domain
    let domain := env.domain
    -- 4. DNS existence validation
    if env.domainExists = false then
      (.error "Domain does not exist or is not reachable.", Trace.existsOnly)
    else
      -- 5. HTTP accessibility (soft check)
      let http_reachable := env.httpReachable
      -- 6. Trusted domain shortcut
      if popular_domains.contains domain then
        (.result
          { domain := domain
            trust_status := "Trusted"
            url_type := "benign"
            risk_level := "LOW"
            risk_score := 0.0
            reachable := http_reachable
            verdict := "This is a trusted and well-established domain."
            whois_summary := "Trusted domain. WHOIS lookup skipped."
            dns_summary := "Standard DNS records detected." },
         Trace.probesOnly)
      else
        -- 7. WHOIS + DNS analysis
        let whois_data := env.whois
        let dns_data := env.dns
        let age_days := scan_age_days env now
        -- 8. AI multi-class prediction
        let url_type := id2label env.label
        -- 9. Risk mapping
        let trust_status := "Untrusted"
        let rlv : String × Rat × String :=
          if url_type = "benign" then
            ("LOW", 0.1, "This URL appears to be safe.")
          else if url_type = "phishing" then
            ("HIGH", 0.8,
             "This URL is likely a phishing attempt impersonating a trusted brand.")
          else if url_type = "defacement" then
            ("MEDIUM", 0.6, "This URL may be associated with website defacement.")
          else  -- malware
            ("HIGH", 0.9, "This URL may distribute malware and should be avoided.")
        (.result
          { domain := domain
            trust_status := trust_status
            url_type := url_type
            risk_level := rlv.1
            risk_score := pyRound2 rlv.2.1
            reachable := http_reachable
            verdict := rlv.2.2
            whois_summary := explain_whois whois_data age_days
            dns_summary := format_dns_readable dns_data },
         Trace.allCalls)

/-! ## The `/scan` endpoint (src/backend/src/main.py) -/

/-- The row `save_scan` (scanner_service.py, lines 169-176) inserts into
the `url_scans` table. -/
structure SavedRow where
  url : String
  domain : String
  risk_score : Rat
  trust_status : String
  url_type : String
deriving DecidableEq

/-- Embedding of `save_scan`: the row built from the scanned URL and the
non-error result dictionary. -/
def save_scan (url : String) (r : ScanResult) : SavedRow :=
  { url := url
    domain := r.domain
    risk_score := r.risk_score
    trust_status := r.trust_status
    url_type := r.url_type }

/-- Whether the Supabase insert issued by `save_scan` succeeds or raises;
an external boundary. -/
inductive SaveOutcome where
  | success
  | failure
deriving DecidableEq

/-- Embedding of the `/scan` endpoint (main.py, lines 47-75): run the
scanner; when the result carries an `error` key, return it without saving;
otherwise try to save, swallowing a persistence failure, and return the
result.  The second component is the persisted row, if any. -/
def scan_endpoint (popular_domains : List String) (env : ScanEnv) (now : Int)
    (save : SaveOutcome) (url : String) : ScanOutcome × Option SavedRow :=
  let result := (scan popular_domains env now url).1
  match result with
  | .error _ => (result, Option.none)
  | .result r =>
    match save with
    | .success => (result, some (save_scan url r))
    | .failure => (result, Option.none)

/-! ## Spec-side comparison definitions (section 4.6 of the spec) -/

/-- The classifier term of section 4.6 of the spec: `min(0.4, confidence)`
when the predicted label is not benign, else nothing. -/
def spec_classifier_term (label : Label) (confidence : Rat) : Rat :=
  match label with
  | Label.benign => 0
  | _ => min 0.4 confidence

/-- The age term of section 4.6 of the spec: +0.30 below 30 days, +0.15
from 30 to under 365 days, -0.30 from 365 days, +0.0 when unknown. -/
def spec_age_term : Option Int → Rat
  | some a => if a < 30 then 0.30 else if a < 365 then 0.15 else -0.30
  | Option.none => 0

/-- The additive risk formula exactly as section 4.6 of the spec states it
for a non-trusted, existing domain, written from the words of the spec for
comparison with the code: classifier term plus age term, DNS credits
-0.15 (A), -0.10 (MX), -0.10 (NS), reachability credit -0.10, and a final
clamp to [0,1]. -/
def spec_risk_score (label : Label) (confidence : Rat) (age_days : Option Int)
    (hasA hasMX hasNS reachable : Bool) : Rat :=
  max 0 (min 1 (spec_classifier_term label confidence + spec_age_term age_days +
    (if hasA then -0.15 else 0) + (if hasMX then -0.10 else 0) +
    (if hasNS then -0.10 else 0) + (if reachable then -0.10 else 0)))

/-- The spec risk formula applied to the signals of a scan environment,
taking the age exactly as the scan pipeline computes it. -/
def spec_risk_of_env (env : ScanEnv) (now : Int) : Rat :=
  spec_risk_score env.label env.confidence (scan_age_days env now)
    (dnsHasA env.dns) (dnsHasMX env.dns) (dnsHasNS env.dns) env.httpReachable

/-- The tier thresholds exactly as the spec states them (section 4.6, step
4): score at least 0.70 is HIGH, score at least 0.40 is MEDIUM, else LOW.
Written from the words of the spec for comparison with the code. -/
def spec_tier (score : Rat) : String :=
  if 0.70 ≤ score then "HIGH"
  else if 0.40 ≤ score then "MEDIUM"
  else "LOW"

/-! ## Module-level names (for the import analysis of scanner_service) -/

/-- The top-level function names defined by `src/backend/src/utils.py`
(transcribed from the source; `_safe_date` is defined twice and appears
once). -/
def utilsDefinedNames : List String :=
  ["_safe_date", "rdap_lookup", "get_whois_info", "dns_lookup",
   "calculate_domain_age_days", "calculate_risk_score",
   "format_whois_nic_style", "explain_whois", "format_dns_readable"]

/-- The names `src/backend/src/services/scanner_service.py` imports from
`src.utils` (lines 5-15 of the source). -/
def scannerUtilsImports : List String :=
  ["get_whois_info", "dns_lookup", "calculate_domain_age_days",
   "explain_whois", "format_dns_readable", "is_valid_url_syntax",
   "extract_domain", "domain_exists", "is_http_accessible"]

/-- The imported names that `src.utils` does not define; a Python
`from src.utils import ...` raises `ImportError` at module load when this
list is non-empty. -/
def missingScannerImports : List String :=
  scannerUtilsImports.filter fun n => utilsDefinedNames.contains n = false

/-! ## Helper lemmas: evaluation of `pyRound2` and the branches of `scan` -/

theorem pyRound2_of_int (q : Rat) (n : Int) (h : q * 100 = (n : Rat)) :
    pyRound2 q = n / 100 := by
  unfold pyRound2
  rw [h]
  norm_num

theorem scan_invalid (pop : List String) (env : ScanEnv) (now : Int) (url : String)
    (hv : is_valid_url_syntax_spec (normalize_url url) = false) :
    scan pop env now url =
      (.error "Invalid URL format. Please enter a valid URL.", Trace.noCalls) := by
  simp [scan, hv]

theorem scan_nonexistent (pop : List String) (env : ScanEnv) (now : Int) (url : String)
    (hv : is_valid_url_syntax_spec (normalize_url url) = true)
    (he : env.domainExists = false) :
    scan pop env now url =
      (.error "Domain does not exist or is not reachable.", Trace.existsOnly) := by
  simp [scan, hv, he]

theorem scan_trusted (pop : List String) (env : ScanEnv) (now : Int) (url : String)
    (hv : is_valid_url_syntax_spec (normalize_url url) = true)
    (he : env.domainExists = true)
    (hp : pop.contains env.domain = true) :
    scan pop env now url =
      (.result
        { domain := env.domain
          trust_status := "Trusted"
          url_type := "benign"
          risk_level := "LOW"
          risk_score := 0.0
          reachable := env.httpReachable
          verdict := "This is a trusted and well-established domain."
          whois_summary := "Trusted domain. WHOIS lookup skipped."
          dns_summary := "Standard DNS records detected." },
       Trace.probesOnly) := by
  have hp2 : env.domain ∈ pop := by simpa using hp
  simp [scan, hv, he, hp2]

theorem scan_default (pop : List String) (env : ScanEnv) (now : Int) (url : String)
    (hv : is_valid_url_syntax_spec (normalize_url url) = true)
    (he : env.domainExists = true)
    (hp : pop.contains env.domain = false) :
    scan pop env now url =
      (.result
        { domain := env.domain
          trust_status := "Untrusted"
          url_type := id2label env.label
          risk_level := match env.label with
            | Label.benign => "LOW"
            | Label.phishing => "HIGH"
            | Label.defacement => "MEDIUM"
            | Label.malware => "HIGH"
          risk_score := match env.label with
            | Label.benign => 0.1
            | Label.phishing => 0.8
            | Label.defacement => 0.6
            | Label.malware => 0.9
          reachable := env.httpReachable
          verdict := match env.label with
            | Label.benign => "This URL appears to be safe."
            | Label.phishing => "This URL is likely a phishing attempt impersonating a trusted brand."
            | Label.defacement => "This URL may be associated with website defacement."
            | Label.malware => "This URL may distribute malware and should be avoided."
          whois_summary := explain_whois env.whois (scan_age_days env now)
          dns_summary := format_dns_readable env.dns },
       Trace.allCalls) := by
  have hp2 : env.domain ∉ pop := by simpa using hp
  cases hl : env.label <;>
    simp [scan, hv, he, hp2, hl, id2label] <;>
    [rw [pyRound2_of_int 0.1 10 (by norm_num)];
     rw [pyRound2_of_int 0.8 80 (by norm_num)];
     rw [pyRound2_of_int 0.6 60 (by norm_num)];
     rw [pyRound2_of_int 0.9 90 (by norm_num)]] <;> norm_num

/-! ## Concrete scan environments used as witnesses and counterexamples -/

/-- A non-trusted domain, 5 days old at `now = 100`, classified phishing
with confidence 0.9, with A, MX and NS records, HTTP reachable. -/
def envPhishingNew : ScanEnv :=
  { domain := "evil-new.com"
    domainExists := true
    httpReachable := true
    whois := { isError := false, domain_name := some "evil-new.com",
               registrar := some "FastReg", creation_date := some ⟨95, false⟩ }
    dns := { A := some [⟨"1.2.3.4", some 300⟩],
             MX := some [⟨"mx.evil-new.com", some 10, some 300⟩],
             NS := some [⟨"ns.evil-new.com", some 300⟩] }
    label := Label.phishing
    confidence := 0.9 }

/-- A non-trusted, well-established domain classified benign. -/
def envBenignScan : ScanEnv :=
  { domain := "smallblog.net"
    domainExists := true
    httpReachable := true
    whois := { isError := false, domain_name := some "smallblog.net",
               registrar := some "NameCo", creation_date := some ⟨100, false⟩ }
    dns := { A := some [⟨"5.6.7.8", some 600⟩],
             MX := some [⟨"mx.smallblog.net", some 10, some 600⟩],
             NS := some [⟨"ns.smallblog.net", some 600⟩] }
    label := Label.benign
    confidence := 0.7 }

/-- A domain whose existence probe failed. -/
def envNoDomain : ScanEnv :=
  { domain := "gone.example"
    domainExists := false
    httpReachable := false
    whois := { isError := true, domain_name := Option.none,
               registrar := Option.none, creation_date := Option.none }
    dns := { A := Option.none, MX := Option.none, NS := Option.none }
    label := Label.phishing
    confidence := 0.8 }

/-- A trust-listed domain whose classifier output is malware with high
confidence (to exercise the trust shortcut overriding the model). -/
def envTrustedMal : ScanEnv :=
  { domain := "example.com"
    domainExists := true
    httpReachable := true
    whois := { isError := false, domain_name := some "example.com",
               registrar := some "IANA", creation_date := some ⟨-9000, false⟩ }
    dns := { A := some [⟨"93.184.216.34", some 3600⟩],
             MX := Option.none,
             NS := some [⟨"a.iana-servers.net", some 3600⟩] }
    label := Label.malware
    confidence := 0.95 }

/-! ## Claim C1 -/

/-- Claim C1 counterexample: at a concrete non-trusted, existing domain
(phishing, confidence 0.9, age 5 days, A and MX and NS records present,
HTTP reachable) the code yields risk_score 0.8, while the additive formula
of section 4.6 yields 0.25, so the final risk_score does not equal the
clamped sum of the ordered additive terms. -/
theorem c1_counterexample :
    ((scan [] envPhishingNew 100 "http://evil-new.com").1).riskScore? = some 0.8 ∧
    spec_risk_of_env envPhishingNew 100 = 0.25 ∧
    (0.8 : Rat) ≠ 0.25 := by
  refine ⟨?_, ?_, by norm_num⟩
  · rw [scan_default [] envPhishingNew 100 "http://evil-new.com"
      (by decide) (by decide) (by decide)]
    rfl
  · unfold spec_risk_of_env
    rw [show scan_age_days envPhishingNew 100 = some 5 from by decide,
        show dnsHasA envPhishingNew.dns = true from by decide,
        show dnsHasMX envPhishingNew.dns = true from by decide,
        show dnsHasNS envPhishingNew.dns = true from by decide]
    show spec_risk_score Label.phishing 0.9 (some 5) true true true true = 0.25
    norm_num [spec_risk_score, spec_classifier_term, spec_age_term, min_def, max_def]

/-- Claim C1 (amended): for every non-trusted, existing domain the final
risk_score is not the additive formula of section 4.6 but a constant fixed
by the predicted label alone: benign 0.1, phishing 0.8, defacement 0.6,
malware 0.9 (confidence, domain age, DNS records and reachability do not
affect it). -/
theorem c1_amended_label_score (pop : List String) (env : ScanEnv) (now : Int)
    (url : String)
    (hv : is_valid_url_syntax_spec (normalize_url url) = true)
    (he : env.domainExists = true)
    (hp : pop.contains env.domain = false) :
    ((scan pop env now url).1).riskScore? =
      some (match env.label with
        | Label.benign => 0.1
        | Label.phishing => 0.8
        | Label.defacement => 0.6
        | Label.malware => 0.9) := by
  rw [scan_default pop env now url hv he hp]
  rfl

/-- Claim C1 witness: the amended statement evaluated at the concrete
phishing environment. -/
theorem c1_amended_witness :
    is_valid_url_syntax_spec (normalize_url "http://evil-new.com") = true ∧
    ((scan [] envPhishingNew 100 "http://evil-new.com").1).riskScore? = some 0.8 :=
  ⟨by decide,
   c1_amended_label_score [] envPhishingNew 100 "http://evil-new.com"
     (by decide) (by decide) (by decide)⟩

/-! ## Claim C2 -/

/-- Claim C2: the four pipeline helpers `is_valid_url_syntax`,
`extract_domain`, `domain_exists` and `is_http_accessible` are imported by
scanner_service.py from `src.utils` but `src.utils` defines none of them,
so the `from src.utils import ...` statement raises `ImportError` when the
scanner module is loaded, before any request is handled. -/
theorem c2_missing_imports :
    missingScannerImports =
      ["is_valid_url_syntax", "extract_domain", "domain_exists",
       "is_http_accessible"] ∧
    missingScannerImports ≠ [] := by
  constructor
  · rfl
  · decide

/-! ## Claim C3 -/

/-- Claim C3 counterexample: for a syntactically valid URL whose domain
does not exist, `scan` returns the error dictionary
`{"error": "Domain does not exist or is not reachable."}` — not a
ScanResult with risk_score 1.0, risk_level HIGH and url_type
"non-existent". -/
theorem c3_counterexample :
    scan [] envNoDomain 0 "http://gone.example" =
      (.error "Domain does not exist or is not reachable.", Trace.existsOnly) ∧
    Trace.existsOnly.whoisCalled = false ∧
    Trace.existsOnly.classifierCalled = false :=
  ⟨scan_nonexistent [] envNoDomain 0 "http://gone.example" (by decide) rfl,
   rfl, rfl⟩

/-- Claim C3 (amended): for every syntactically valid URL whose domain
does not exist, `scan` returns the error result "Domain does not exist or
is not reachable." (an ErrorResult, not a ScanResult with risk_score 1.0
and url_type "non-existent"); WHOIS lookup and classification are not
invoked, and nothing is persisted. -/
theorem c3_amended_nonexistent_error (pop : List String) (env : ScanEnv)
    (now : Int) (save : SaveOutcome) (url : String)
    (hv : is_valid_url_syntax_spec (normalize_url url) = true)
    (he : env.domainExists = false) :
    (scan pop env now url).1 = .error "Domain does not exist or is not reachable." ∧
    (scan pop env now url).2.whoisCalled = false ∧
    (scan pop env now url).2.classifierCalled = false ∧
    (scan_endpoint pop env now save url).2 = Option.none := by
  have h := scan_nonexistent pop env now url hv he
  refine ⟨?_, ?_, ?_, ?_⟩ <;> simp [h, scan_endpoint, Trace.existsOnly]

/-- Claim C3 witness: the amended statement evaluated at the concrete
non-existent-domain environment. -/
theorem c3_amended_witness :
    is_valid_url_syntax_spec (normalize_url "http://gone.example") = true ∧
    ((scan [] envNoDomain 0 "http://gone.example").1 =
      .error "Domain does not exist or is not reachable." ∧
     (scan_endpoint [] envNoDomain 0 SaveOutcome.success "http://gone.example").2 =
       Option.none) :=
  ⟨by decide,
   (c3_amended_nonexistent_error [] envNoDomain 0 SaveOutcome.success
      "http://gone.example" (by decide) rfl).1,
   (c3_amended_nonexistent_error [] envNoDomain 0 SaveOutcome.success
      "http://gone.example" (by decide) rfl).2.2.2⟩

/-! ## Claim C4 -/

/-- Claim C4: for every URL that scans without error and whose canonical
domain is in the trust set, `scan` returns trust_status "Trusted",
url_type "benign", risk_level "LOW" and risk_score 0.0, regardless of the
classifier output (the classifier is not invoked at all on this path). -/
theorem c4_trusted_shortcut (pop : List String) (env : ScanEnv) (now : Int)
    (url : String)
    (hv : is_valid_url_syntax_spec (normalize_url url) = true)
    (he : env.domainExists = true)
    (hp : pop.contains env.domain = true) :
    ((scan pop env now url).1).trustStatus? = some "Trusted" ∧
    ((scan pop env now url).1).urlType? = some "benign" ∧
    ((scan pop env now url).1).riskLevel? = some "LOW" ∧
    ((scan pop env now url).1).riskScore? = some 0.0 ∧
    (scan pop env now url).2.classifierCalled = false := by
  rw [scan_trusted pop env now url hv he hp]
  exact ⟨rfl, rfl, rfl, rfl, rfl⟩

/-- Claim C4 witness: the trust shortcut at a concrete trust-listed domain
whose classifier output is malware with confidence 0.95. -/
theorem c4_witness :
    (["example.com"].contains envTrustedMal.domain = true ∧
     envTrustedMal.label = Label.malware) ∧
    (((scan ["example.com"] envTrustedMal 0 "http://example.com").1).trustStatus? =
       some "Trusted" ∧
     ((scan ["example.com"] envTrustedMal 0 "http://example.com").1).urlType? =
       some "benign" ∧
     ((scan ["example.com"] envTrustedMal 0 "http://example.com").1).riskLevel? =
       some "LOW" ∧
     ((scan ["example.com"] envTrustedMal 0 "http://example.com").1).riskScore? =
       some 0.0 ∧
     (scan ["example.com"] envTrustedMal 0 "http://example.com").2.classifierCalled =
       false) :=
  ⟨⟨by decide, rfl⟩,
   c4_trusted_shortcut ["example.com"] envTrustedMal 0 "http://example.com"
     (by decide) rfl (by decide)⟩

/-! ## Claim C5 -/

/-- Claim C5 counterexample: a non-trust-listed domain classified benign
gets risk_score 0.1, which is below 0.40, yet its trust_status is
"Untrusted" — refuting that trust_status is "Trusted" exactly when the
final score is below 0.40. -/
theorem c5_counterexample :
    ((scan [] envBenignScan 1000 "http://smallblog.net").1).riskScore? = some 0.1 ∧
    (0.1 : Rat) < 0.40 ∧
    ((scan [] envBenignScan 1000 "http://smallblog.net").1).trustStatus? =
      some "Untrusted" ∧
    ("Untrusted" : String) ≠ "Trusted" := by
  have h := scan_default [] envBenignScan 1000 "http://smallblog.net"
    (by decide) rfl (by decide)
  refine ⟨by rw [h]; rfl, by norm_num, by rw [h]; rfl, by decide⟩

/-- Claim C5 (amended): for every URL that scans without error,
trust_status is "Trusted" exactly when the domain is in the trust set; it
is independent of the risk score, and a non-trust-listed domain is always
"Untrusted", even when its final score is below 0.40. -/
theorem c5_amended_trust_iff_listed (pop : List String) (env : ScanEnv)
    (now : Int) (url : String)
    (hv : is_valid_url_syntax_spec (normalize_url url) = true)
    (he : env.domainExists = true) :
    (((scan pop env now url).1).trustStatus? = some "Trusted" ↔
      pop.contains env.domain = true) := by
  cases hp : pop.contains env.domain
  · rw [scan_default pop env now url hv he hp]
    simp [ScanOutcome.trustStatus?]
  · rw [scan_trusted pop env now url hv he hp]
    simp [ScanOutcome.trustStatus?]

/-- Claim C5 witness: the amended equivalence evaluated at a trust-listed
environment. -/
theorem c5_amended_witness :
    ((scan ["example.com"] envTrustedMal 0 "http://example.com").1).trustStatus? =
      some "Trusted" :=
  (c5_amended_trust_iff_listed ["example.com"] envTrustedMal 0
    "http://example.com" (by decide) rfl).mpr (by decide)

/-! ## Claim C6 -/

/-- Claim C6: for every URL that scans without error, the risk_score lies
in [0, 1] and the risk_level equals the threshold map of section 4.6
applied to the risk_score (at least 0.70 is HIGH, at least 0.40 is MEDIUM,
below 0.40 is LOW). -/
theorem c6_bounds_and_tier (pop : List String) (env : ScanEnv) (now : Int)
    (url : String) (s : Rat)
    (hs : ((scan pop env now url).1).riskScore? = some s) :
    0 ≤ s ∧ s ≤ 1 ∧
    ((scan pop env now url).1).riskLevel? = some (spec_tier s) := by
  cases hv : is_valid_url_syntax_spec (normalize_url url)
  · rw [scan_invalid pop env now url hv] at hs
    simp [ScanOutcome.riskScore?] at hs
  · cases he : env.domainExists
    · rw [scan_nonexistent pop env now url hv he] at hs
      simp [ScanOutcome.riskScore?] at hs
    · cases hp : pop.contains env.domain
      · rw [scan_default pop env now url hv he hp] at hs ⊢
        simp only [ScanOutcome.riskScore?, Option.some.injEq] at hs
        subst hs
        cases hl : env.label <;>
          simp [hl, ScanOutcome.riskLevel?, spec_tier] <;> norm_num
      · rw [scan_trusted pop env now url hv he hp] at hs ⊢
        simp only [ScanOutcome.riskScore?, Option.some.injEq] at hs
        subst hs
        simp [ScanOutcome.riskLevel?, spec_tier]
        norm_num

/-- Claim C6 witness: bounds and tier at the concrete benign scan. -/
theorem c6_witness :
    0 ≤ (0.1 : Rat) ∧ (0.1 : Rat) ≤ 1 ∧
    ((scan [] envBenignScan 1000 "http://smallblog.net").1).riskLevel? =
      some (spec_tier 0.1) :=
  c6_bounds_and_tier [] envBenignScan 1000 "http://smallblog.net" 0.1
    (by rw [scan_default [] envBenignScan 1000 "http://smallblog.net"
          (by decide) rfl (by decide)]; rfl)

/-! ## Claim C7 -/

/-- Claim C7 counterexample: two non-error results with the same
trust_status "Untrusted" carry different verdicts (the benign and the
phishing templates), so the verdict is not one of exactly two fixed
templates keyed on trust_status only. -/
theorem c7_counterexample :
    ((scan [] envBenignScan 1000 "http://smallblog.net").1).trustStatus? =
      some "Untrusted" ∧
    ((scan [] envPhishingNew 100 "http://evil-new.com").1).trustStatus? =
      some "Untrusted" ∧
    ((scan [] envBenignScan 1000 "http://smallblog.net").1).verdict? =
      some "This URL appears to be safe." ∧
    ((scan [] envPhishingNew 100 "http://evil-new.com").1).verdict? =
      some "This URL is likely a phishing attempt impersonating a trusted brand." ∧
    ("This URL appears to be safe." : String) ≠
      "This URL is likely a phishing attempt impersonating a trusted brand." := by
  have h1 := scan_default [] envBenignScan 1000 "http://smallblog.net"
    (by decide) rfl (by decide)
  have h2 := scan_default [] envPhishingNew 100 "http://evil-new.com"
    (by decide) rfl (by decide)
  refine ⟨by rw [h1]; rfl, by rw [h2]; rfl, by rw [h1]; rfl, by rw [h2]; rfl,
    by decide⟩

/-- Claim C7 (amended): for every URL that scans without error the verdict
is one of five fixed templates — the trusted template on the trust-list
path, and one of four per-label templates on the default path — and the
trusted template appears exactly on results whose trust_status is
"Trusted"; the verdict therefore varies with the classifier label, not
with trust_status alone. -/
theorem c7_amended_five_verdicts (pop : List String) (env : ScanEnv)
    (now : Int) (url : String) (v : String)
    (hv7 : ((scan pop env now url).1).verdict? = some v) :
    v ∈ ["This is a trusted and well-established domain.",
         "This URL appears to be safe.",
         "This URL is likely a phishing attempt impersonating a trusted brand.",
         "This URL may be associated with website defacement.",
         "This URL may distribute malware and should be avoided."] ∧
    (v = "This is a trusted and well-established domain." ↔
      ((scan pop env now url).1).trustStatus? = some "Trusted") ∧
    (((scan pop env now url).1).trustStatus? = some "Untrusted" →
      v = (match env.label with
        | Label.benign => "This URL appears to be safe."
        | Label.phishing =>
          "This URL is likely a phishing attempt impersonating a trusted brand."
        | Label.defacement => "This URL may be associated with website defacement."
        | Label.malware => "This URL may distribute malware and should be avoided.")) := by
  cases hv : is_valid_url_syntax_spec (normalize_url url)
  · rw [scan_invalid pop env now url hv] at hv7
    simp [ScanOutcome.verdict?] at hv7
  · cases he : env.domainExists
    · rw [scan_nonexistent pop env now url hv he] at hv7
      simp [ScanOutcome.verdict?] at hv7
    · cases hp : pop.contains env.domain
      · rw [scan_default pop env now url hv he hp] at hv7 ⊢
        simp only [ScanOutcome.verdict?, Option.some.injEq] at hv7
        subst hv7
        cases hl : env.label <;> simp [hl, ScanOutcome.trustStatus?]
      · rw [scan_trusted pop env now url hv he hp] at hv7 ⊢
        simp only [ScanOutcome.verdict?, Option.some.injEq] at hv7
        subst hv7
        simp [ScanOutcome.trustStatus?]

/-- Claim C7 witness: the amended statement at the concrete benign scan —
the benign verdict is in the five-template set, is not the trusted
template (matching the Untrusted status), and equals the benign label
template on the untrusted path. -/
theorem c7_amended_witness :
    ("This URL appears to be safe." : String) ∈
      ["This is a trusted and well-established domain.",
       "This URL appears to be safe.",
       "This URL is likely a phishing attempt impersonating a trusted brand.",
       "This URL may be associated with website defacement.",
       "This URL may distribute malware and should be avoided."] ∧
    (("This URL appears to be safe." : String) =
        "This is a trusted and well-established domain." ↔
      ((scan [] envBenignScan 1000 "http://smallblog.net").1).trustStatus? =
        some "Trusted") ∧
    (((scan [] envBenignScan 1000 "http://smallblog.net").1).trustStatus? =
        some "Untrusted" →
      ("This URL appears to be safe." : String) = "This URL appears to be safe.") :=
  c7_amended_five_verdicts [] envBenignScan 1000 "http://smallblog.net"
    "This URL appears to be safe."
    (by rw [scan_default [] envBenignScan 1000 "http://smallblog.net"
          (by decide) rfl (by decide)]; rfl)

/-! ## Claim C8 -/

/-- Claim C8 counterexample: on the list `[None]` — a value of the claimed
"list whose first element is taken" shape — `calculate_domain_age_days`
raises `AttributeError` instead of returning the unknown marker: the list
is truthy, its first element `None` is neither a string nor a `datetime`,
and the `tzinfo` attribute access fails. -/
theorem c8_counterexample :
    calculate_domain_age_days 20000 (PyVal.list [PyVal.none]) =
      .error "AttributeError: object has no attribute tzinfo" := rfl

/-- Claim C8 (amended): `calculate_domain_age_days` never raises and
returns either the age in whole days or the unknown marker for the
heterogeneous shapes None, a single datetime, an ISO-8601 string, the
empty list, and a list whose first element is a datetime or a string; a
datetime input yields exactly the age in whole days against the current
UTC time.  (A truthy value of any other shape, such as the list `[None]`,
raises `AttributeError`.) -/
theorem c8_amended_no_raise_on_good_shapes (now : Int) (v : PyVal)
    (d : PyDatetime) (h : goodShape v = true) :
    (calculate_domain_age_days now v).toOption.isSome = true ∧
    calculate_domain_age_days now (PyVal.dt d) = .ok (some (now - d.epochDays)) := by
  constructor
  · cases v with
    | none => rfl
    | dt d2 => rfl
    | str e iso => cases e <;> cases iso <;> rfl
    | list xs =>
      cases xs with
      | nil => rfl
      | cons x tl =>
        cases x with
        | none => simp [goodShape] at h
        | dt d3 => rfl
        | str e2 iso2 => cases iso2 <;> rfl
        | list ys => simp [goodShape] at h
        | other t => simp [goodShape] at h
    | other t => simp [goodShape] at h
  · rfl

/-- Claim C8 witness: the amended statement at a list-wrapped unparsable
string (age unknown, no exception) and a concrete datetime. -/
theorem c8_amended_witness :
    goodShape (PyVal.list [PyVal.str false Option.none]) = true ∧
    ((calculate_domain_age_days 5 (PyVal.list [PyVal.str false Option.none])).toOption.isSome =
       true ∧
     calculate_domain_age_days 5 (PyVal.dt ⟨2, false⟩) = .ok (some 3)) :=
  ⟨rfl, c8_amended_no_raise_on_good_shapes 5
    (PyVal.list [PyVal.str false Option.none]) ⟨2, false⟩ rfl⟩

/-! ## Claim C9 -/

/-- Claim C9: the scan endpoint persists a row {url, domain, risk_score,
trust_status, url_type} exactly for non-error results with a successful
insert: the response always equals the scanner result (a persistence
failure never changes it), an error result is never persisted, and a
persisted row carries exactly those five fields. -/
theorem c9_persist_only_non_error (pop : List String) (env : ScanEnv)
    (now : Int) (save : SaveOutcome) (url : String) :
    (scan_endpoint pop env now save url).1 = (scan pop env now url).1 ∧
    (∀ m, (scan pop env now url).1 = .error m →
      (scan_endpoint pop env now save url).2 = Option.none) ∧
    (∀ r, (scan pop env now url).1 = .result r → save = SaveOutcome.success →
      (scan_endpoint pop env now save url).2 =
        some { url := url, domain := r.domain, risk_score := r.risk_score,
               trust_status := r.trust_status, url_type := r.url_type }) := by
  refine ⟨?_, ?_, ?_⟩
  · cases hsc : (scan pop env now url).1 <;> cases save <;>
      simp [scan_endpoint, hsc]
  · intro m hm
    cases save <;> simp [scan_endpoint, hm]
  · intro r hr hsave
    subst hsave
    simp [scan_endpoint, hr, save_scan]

/-- Claim C9 witness: an error result is not persisted, and a persistence
failure leaves the response equal to the scanner result. -/
theorem c9_witness :
    (scan_endpoint [] envNoDomain 0 SaveOutcome.success "gone.example").2 =
      Option.none ∧
    (scan_endpoint [] envBenignScan 1000 SaveOutcome.failure
        "http://smallblog.net").1 =
      (scan [] envBenignScan 1000 "http://smallblog.net").1 :=
  ⟨(c9_persist_only_non_error [] envNoDomain 0 SaveOutcome.success
      "gone.example").2.1 "Domain does not exist or is not reachable."
      (by rw [scan_nonexistent [] envNoDomain 0 "gone.example" (by decide) rfl]),
   (c9_persist_only_non_error [] envBenignScan 1000 SaveOutcome.failure
      "http://smallblog.net").1⟩

/-! ## Claim C10 -/

/-- Claim C10: normalization prepends "http://" exactly when the scheme
separator "://" is absent from the raw input; and the malformed input
"http:// bad url" (it contains a space) fails syntax validation, so `scan`
returns the InvalidSyntax error with no external call issued — whatever
the network environment — and the endpoint persists nothing. -/
theorem c10_validation_before_network (u : String) (pop : List String)
    (env : ScanEnv) (now : Int) (save : SaveOutcome) :
    (hasSchemeSep u = false → normalize_url u = "http://" ++ u) ∧
    (hasSchemeSep u = true → normalize_url u = u) ∧
    is_valid_url_syntax_spec (normalize_url "http:// bad url") = false ∧
    scan pop env now "http:// bad url" =
      (.error "Invalid URL format. Please enter a valid URL.", Trace.noCalls) ∧
    (scan_endpoint pop env now save "http:// bad url").2 = Option.none := by
  refine ⟨?_, ?_, by decide, ?_, ?_⟩
  · intro h
    simp [normalize_url, h]
  · intro h
    simp [normalize_url, h]
  · exact scan_invalid pop env now "http:// bad url" (by decide)
  · simp [scan_endpoint, scan_invalid pop env now "http:// bad url" (by decide)]

/-- Claim C10 witness: the normalization and the malformed-input guard at
concrete inputs. -/
theorem c10_witness :
    normalize_url "example.com" = "http://example.com" ∧
    (scan_endpoint [] envNoDomain 0 SaveOutcome.success "http:// bad url").2 =
      Option.none :=
  ⟨(c10_validation_before_network "example.com" [] envNoDomain 0
      SaveOutcome.success).1 (by decide),
   (c10_validation_before_network "example.com" [] envNoDomain 0
      SaveOutcome.success).2.2.2.2⟩

end CyberSentinel
